import Mathlib

/-!
Verification of the lesca repository (src/main.py): a script that collects
authentication cookies from environment variables and injects them into a
freshly started headless browser session.

The embedding below mirrors src/main.py. The process environment is
modelled as a function from variable names to optional string values. The
Python expression os.environ.get(key) becomes an application of that
function; the Python truthiness test "if val:" on a string is a test for a
non-empty value; the dictionary indexing DOMAINS[key], which raises
KeyError when the key is missing, is modelled with Option so that the
failure branch is visible; the selenium calls inside setup_driver are
modelled as an emitted trace of effect events.
-/

namespace Lesca

/-- A cookie record as built by get_cookies in src/main.py: the dict
with keys name, value and domain. -/
structure Cookie where
  name : String
  value : String
  domain : String
deriving DecidableEq

/-- The process environment: a snapshot mapping variable names to their
optional values, as read through os.environ.get. -/
abbrev Env := String → Option String

/-- COOKIE_KEYS from src/main.py, in its declared order. -/
def COOKIE_KEYS : List String :=
  ["CF_CLEARANCE", "CSRF_TOKEN", "INGRESSCOOKIE", "IP_CHECK",
   "LEETCODE_SESSION", "MESSAGES"]

/-- DOMAINS from src/main.py, as an association list in declaration
order. -/
def DOMAINS : List (String × String) :=
  [("CF_CLEARANCE", ".leetcode.com"),
   ("CSRF_TOKEN", "leetcode.com"),
   ("INGRESSCOOKIE", "leetcode.com"),
   ("IP_CHECK", "leetcode.com"),
   ("LEETCODE_SESSION", ".leetcode.com"),
   ("MESSAGES", ".leetcode.com")]

/-- COMPANY_URL from src/main.py. -/
def COMPANY_URL : String :=
  "https://leetcode.com/company/capital-one/?favoriteSlug=capital-one-six-months"

/-- OUTPUT_DIR from src/main.py: os.environ.get with the default
value leetcode-capitalone. -/
def OUTPUT_DIR (env : Env) : String :=
  (env "OUTPUT_DIR").getD "leetcode-capitalone"

/-- The Python method str.lower as used on the cookie keys: lowercase
every character. Defined structurally over the character list so that
it evaluates inside the kernel. -/
def lowerStr (s : String) : String :=
  String.mk (s.data.map Char.toLower)

/-- The loop body of get_cookies, one key at a time, in list order.
For each key: read the environment; skip when absent or empty (Python
truthiness of the string); otherwise look the key up in DOMAINS, which
fails (KeyError) when the key is missing, and prepend the record built
from the lowercased key, the value and the mapped domain. -/
def collect (env : Env) : List String → Option (List Cookie)
  | [] => some []
  | k :: ks =>
    match env k with
    | some v =>
      if v = "" then collect env ks
      else
        match List.lookup k DOMAINS with
        | some d => (collect env ks).map (fun rest => ⟨lowerStr k, v, d⟩ :: rest)
        | none => none
    | none => collect env ks

/-- get_cookies from src/main.py: run the collection loop over
COOKIE_KEYS. The Option layer records the possibility of a KeyError
from the DOMAINS lookup. -/
def get_cookies (env : Env) : Option (List Cookie) :=
  collect env COOKIE_KEYS

/-- An observable effect of setup_driver on the outside world, in the
order the selenium calls are made in src/main.py. -/
inductive Event where
  | addArgument (flag : String)
  | launchChrome
  | navigate (url : String)
  | addCookie (c : Cookie)
deriving DecidableEq

/-- setup_driver from src/main.py, as the trace of effects it performs:
three fixed option flags, the Chrome launch, the landing page
navigation, then one add_cookie call per record returned by
get_cookies, in order. A failure of get_cookies propagates. -/
def setup_driver (env : Env) : Option (List Event) :=
  match get_cookies env with
  | some cs =>
    some ([Event.addArgument "--headless=new",
           Event.addArgument "--no-sandbox",
           Event.addArgument "--disable-dev-shm-usage",
           Event.launchChrome,
           Event.navigate "https://leetcode.com/"]
          ++ cs.map Event.addCookie)
  | none => none

/-- Whether a key counts as set in the environment: present with a
non-empty value (the Python truthiness test). -/
def isSet (env : Env) (k : String) : Bool :=
  match env k with
  | some v => v != ""
  | none => false

/-- The record get_cookies would contribute for a single key, when the
key is set and has a domain mapping. -/
def cookieOfKey (env : Env) (k : String) : Option Cookie :=
  match env k with
  | some v =>
    if v = "" then none
    else
      match List.lookup k DOMAINS with
      | some d => some ⟨lowerStr k, v, d⟩
      | none => none
  | none => none

/-- Pointwise environment override, used to state claims about changing
a single variable. -/
def updateEnv (env : Env) (k : String) (v : Option String) : Env :=
  fun j => if j = k then v else env j

/-- The environment of the concrete scenario in the spec: only
LEETCODE_SESSION and CSRF_TOKEN are set. -/
def demoEnv : Env :=
  fun k =>
    if k = "LEETCODE_SESSION" then some "abc123"
    else if k = "CSRF_TOKEN" then some "xyz"
    else none

/-- The environment with no variables set at all. -/
def emptyEnv : Env := fun _ => none

/-- An environment where a recognized key is present but empty. -/
def blankEnv : Env :=
  fun k => if k = "CF_CLEARANCE" then some "" else none

/-- The demo environment with an extra unrelated variable set. -/
def demoEnvExtra : Env :=
  fun k => if k = "HOME" then some "/root" else demoEnv k

/-- Every key of COOKIE_KEYS has an entry in DOMAINS. -/
lemma keys_have_domains : ∀ k ∈ COOKIE_KEYS, (List.lookup k DOMAINS).isSome := by
  decide

/-- The collection loop never fails and computes the filterMap of
cookieOfKey over its key list, provided every key has a domain. -/
lemma collect_eq_filterMap (env : Env) (ks : List String)
    (h : ∀ k ∈ ks, (List.lookup k DOMAINS).isSome) :
    collect env ks = some (ks.filterMap (cookieOfKey env)) := by
  induction ks with
  | nil => rfl
  | cons k ks ih =>
    have hk : (List.lookup k DOMAINS).isSome := h k (by simp)
    have hks : ∀ j ∈ ks, (List.lookup j DOMAINS).isSome :=
      fun j hj => h j (by simp [hj])
    cases henv : env k with
    | none =>
      simp [collect, henv, cookieOfKey, ih hks]
    | some v =>
      by_cases hv : v = ""
      · simp [collect, henv, hv, cookieOfKey, ih hks]
      · cases hd : List.lookup k DOMAINS with
        | none => rw [hd] at hk; simp at hk
        | some d =>
          simp [collect, henv, hv, hd, cookieOfKey, ih hks]

/-- get_cookies succeeds on every environment and equals the filterMap
of cookieOfKey over COOKIE_KEYS. -/
lemma get_cookies_eq (env : Env) :
    get_cookies env = some (COOKIE_KEYS.filterMap (cookieOfKey env)) :=
  collect_eq_filterMap env COOKIE_KEYS keys_have_domains

/-- Unfolding of a successful cookieOfKey: the record fields come from
the key, the environment and the DOMAINS table. -/
lemma cookieOfKey_some (env : Env) (k : String) (c : Cookie)
    (h : cookieOfKey env k = some c) :
    c.name = lowerStr k ∧ env k = some c.value ∧
      List.lookup k DOMAINS = some c.domain ∧ isSet env k = true := by
  cases henv : env k with
  | none => simp [cookieOfKey, henv] at h
  | some v =>
    by_cases hv : v = ""
    · simp [cookieOfKey, henv, hv] at h
    · cases hd : List.lookup k DOMAINS with
      | none => simp [cookieOfKey, henv, hv, hd] at h
      | some d =>
        simp [cookieOfKey, henv, hv, hd] at h
        cases h
        exact ⟨rfl, rfl, rfl, by simp [isSet, henv, hv]⟩

/-- cookieOfKey succeeds exactly on set keys, given a domain entry. -/
lemma cookieOfKey_isSome (env : Env) (k : String)
    (hd : (List.lookup k DOMAINS).isSome) :
    (cookieOfKey env k).isSome = isSet env k := by
  unfold cookieOfKey isSet
  cases henv : env k with
  | none => simp
  | some v =>
    by_cases hv : v = ""
    · simp [hv]
    · cases hdm : List.lookup k DOMAINS with
      | none => rw [hdm] at hd; simp at hd
      | some d => simp [hv, hdm]

/-- The number of collected records equals the number of set keys. -/
lemma filterMap_length_eq (env : Env) (ks : List String)
    (h : ∀ k ∈ ks, (List.lookup k DOMAINS).isSome) :
    (ks.filterMap (cookieOfKey env)).length = (ks.filter (isSet env)).length := by
  induction ks with
  | nil => rfl
  | cons k ks ih =>
    have hk := cookieOfKey_isSome env k (h k (by simp))
    have hks : ∀ j ∈ ks, (List.lookup j DOMAINS).isSome :=
      fun j hj => h j (by simp [hj])
    cases hc : cookieOfKey env k with
    | none =>
      have : isSet env k = false := by rw [← hk, hc]; rfl
      simp [List.filterMap_cons, hc, this, ih hks]
    | some c =>
      have : isSet env k = true := by rw [← hk, hc]; rfl
      simp [List.filterMap_cons, hc, this, ih hks]

/-- The names of the collected records appear in key-list order: they
form a sublist of the lowercased key list. -/
lemma filterMap_names_sublist (env : Env) (ks : List String) :
    List.Sublist ((ks.filterMap (cookieOfKey env)).map Cookie.name)
      (ks.map lowerStr) := by
  induction ks with
  | nil => simp
  | cons k ks ih =>
    cases hc : cookieOfKey env k with
    | none =>
      simp only [List.filterMap_cons, hc, List.map_cons]
      exact ih.cons _
    | some c =>
      have hname : c.name = lowerStr k := (cookieOfKey_some env k c hc).1
      simp only [List.filterMap_cons, hc, List.map_cons, hname]
      exact ih.cons₂ _

/-- Environments that agree on a key list give equal cookieOfKey
results there, hence equal filterMaps. -/
lemma filterMap_congr_env (env₁ env₂ : Env) (ks : List String)
    (h : ∀ k ∈ ks, env₁ k = env₂ k) :
    ks.filterMap (cookieOfKey env₁) = ks.filterMap (cookieOfKey env₂) := by
  induction ks with
  | nil => rfl
  | cons k ks ih =>
    have hk : env₁ k = env₂ k := h k (by simp)
    have hks : ∀ j ∈ ks, env₁ j = env₂ j := fun j hj => h j (by simp [hj])
    simp only [List.filterMap_cons, ih hks]
    have : cookieOfKey env₁ k = cookieOfKey env₂ k := by
      unfold cookieOfKey; rw [hk]
    rw [this]

/-- Pointwise congruence replacement for cookieOfKey: equal cookie
contributions on every key give equal filterMaps. -/
lemma filterMap_congr_cookie (env₁ env₂ : Env) (ks : List String)
    (h : ∀ k ∈ ks, cookieOfKey env₁ k = cookieOfKey env₂ k) :
    ks.filterMap (cookieOfKey env₁) = ks.filterMap (cookieOfKey env₂) := by
  induction ks with
  | nil => rfl
  | cons k ks ih =>
    have hk := h k (by simp)
    have hks : ∀ j ∈ ks, cookieOfKey env₁ j = cookieOfKey env₂ j :=
      fun j hj => h j (by simp [hj])
    simp only [List.filterMap_cons, hk, ih hks]

/-- cookieOfKey only looks at the environment at its own key. -/
lemma cookieOfKey_ext (env₁ env₂ : Env) (k : String)
    (h : env₁ k = env₂ k) : cookieOfKey env₁ k = cookieOfKey env₂ k := by
  unfold cookieOfKey; rw [h]

/-- A key set to the empty string contributes nothing, like an absent
key. -/
lemma cookieOfKey_empty_value (env : Env) (k : String)
    (h : env k = some "") : cookieOfKey env k = none := by
  simp [cookieOfKey, h]

/-- Claim C9: every element of COOKIE_KEYS is a key of DOMAINS, so the
dictionary lookup inside get_cookies can never fail: on every
environment snapshot get_cookies terminates without a missing-key
error. -/
theorem c9_domains_lookup_total (env : Env) : (get_cookies env).isSome := by
  rw [get_cookies_eq]; rfl

/-- Claim C5: with LEETCODE_SESSION set to abc123 and CSRF_TOKEN set to
xyz and the other recognized keys unset, get_cookies returns exactly
the csrf_token record followed by the leetcode_session record; with no
recognized key set it returns the empty sequence. -/
theorem c5_concrete_scenarios :
    get_cookies demoEnv =
      some [⟨"csrf_token", "xyz", "leetcode.com"⟩,
            ⟨"leetcode_session", "abc123", ".leetcode.com"⟩] ∧
    get_cookies emptyEnv = some [] := by
  constructor
  · rfl
  · rfl

/-- Claim C1: for every environment snapshot, get_cookies returns one
record per recognized key that is set with a non-empty value, and each
record carries the lowercased key as name, the environment value as
value, and the DOMAINS entry of that key as domain. -/
theorem c1_collector_records (env : Env) :
    ∃ cs, get_cookies env = some cs ∧
      cs.length = (COOKIE_KEYS.filter (isSet env)).length ∧
      ∀ c ∈ cs, ∃ k, k ∈ COOKIE_KEYS ∧ c.name = lowerStr k ∧
        env k = some c.value ∧ List.lookup k DOMAINS = some c.domain := by
  refine ⟨COOKIE_KEYS.filterMap (cookieOfKey env), get_cookies_eq env,
    filterMap_length_eq env COOKIE_KEYS keys_have_domains, ?_⟩
  intro c hc
  rcases List.mem_filterMap.mp hc with ⟨k, hk, hck⟩
  obtain ⟨h1, h2, h3, _⟩ := cookieOfKey_some env k c hck
  exact ⟨k, hk, h1, h2, h3⟩

/-- Witness for C1 at the concrete two-variable environment. -/
theorem c1_collector_records_witness :
    ∃ cs, get_cookies demoEnv = some cs ∧
      cs.length = (COOKIE_KEYS.filter (isSet demoEnv)).length ∧
      ∀ c ∈ cs, ∃ k, k ∈ COOKIE_KEYS ∧ c.name = lowerStr k ∧
        demoEnv k = some c.value ∧ List.lookup k DOMAINS = some c.domain :=
  c1_collector_records demoEnv

/-- Claim C2: the output of get_cookies is the filterMap of the key
table in its declared order, so the record names form a sublist of the
lowercased COOKIE_KEYS, independent of how the environment was
populated. -/
theorem c2_output_order (env : Env) (cs : List Cookie)
    (h : get_cookies env = some cs) :
    cs = COOKIE_KEYS.filterMap (cookieOfKey env) ∧
      List.Sublist (cs.map Cookie.name) (COOKIE_KEYS.map lowerStr) := by
  have he := get_cookies_eq env
  rw [h] at he
  have hcs : cs = COOKIE_KEYS.filterMap (cookieOfKey env) := Option.some.inj he
  subst hcs
  exact ⟨rfl, filterMap_names_sublist env COOKIE_KEYS⟩

/-- Witness for C2 at the concrete two-variable environment. -/
theorem c2_output_order_witness :
    [Cookie.mk "csrf_token" "xyz" "leetcode.com",
     Cookie.mk "leetcode_session" "abc123" ".leetcode.com"] =
        COOKIE_KEYS.filterMap (cookieOfKey demoEnv) ∧
      List.Sublist
        ([Cookie.mk "csrf_token" "xyz" "leetcode.com",
          Cookie.mk "leetcode_session" "abc123" ".leetcode.com"].map Cookie.name)
        (COOKIE_KEYS.map lowerStr) :=
  c2_output_order demoEnv _ rfl

/-- Claim C3: a recognized key present with the empty string as value is
excluded from the output exactly as if the variable were absent, and
get_cookies still succeeds without an error. -/
theorem c3_empty_value_as_absent (env : Env) (k : String)
    (h : env k = some "") :
    get_cookies env = get_cookies (updateEnv env k none) ∧
      (get_cookies env).isSome := by
  constructor
  · rw [get_cookies_eq, get_cookies_eq]
    refine congrArg some (filterMap_congr_cookie env (updateEnv env k none) COOKIE_KEYS ?_)
    intro j hj
    by_cases hjk : j = k
    · subst hjk
      rw [cookieOfKey_empty_value env j h]
      simp [cookieOfKey, updateEnv]
    · exact cookieOfKey_ext _ _ j (by simp [updateEnv, hjk])
  · rw [get_cookies_eq]; rfl

/-- Witness for C3: CF_CLEARANCE set to the empty string. -/
theorem c3_empty_value_as_absent_witness :
    get_cookies blankEnv = get_cookies (updateEnv blankEnv "CF_CLEARANCE" none) ∧
      (get_cookies blankEnv).isSome :=
  c3_empty_value_as_absent blankEnv "CF_CLEARANCE" rfl

/-- Claim C4: a variable whose name is outside the six-key table never
contributes a record: overriding it, even with a non-empty value,
leaves the output of get_cookies unchanged. -/
theorem c4_unrecognized_keys_ignored (env : Env) (k : String) (v : String)
    (h : k ∉ COOKIE_KEYS) :
    get_cookies (updateEnv env k (some v)) = get_cookies env := by
  rw [get_cookies_eq, get_cookies_eq]
  refine congrArg some (filterMap_congr_env _ _ COOKIE_KEYS ?_)
  intro j hj
  have hjk : j ≠ k := fun e => h (e ▸ hj)
  simp [updateEnv, hjk]

/-- Witness for C4: setting the unrecognized variable PATH changes
nothing. -/
theorem c4_unrecognized_keys_ignored_witness :
    get_cookies (updateEnv emptyEnv "PATH" (some "x")) = get_cookies emptyEnv :=
  c4_unrecognized_keys_ignored emptyEnv "PATH" "x" (by decide)

/-- Claim C6: setup_driver configures the three fixed flags (headless,
no sandbox, no dev shm), and its trace splits into a cookie-free prefix
containing the landing page navigation followed by exactly one
add_cookie event per collected record, so navigation precedes every
cookie injection and every collected cookie is injected. -/
theorem c6_navigate_before_cookies (env : Env) :
    ∃ tr cs, setup_driver env = some tr ∧ get_cookies env = some cs ∧
      Event.addArgument "--headless=new" ∈ tr ∧
      Event.addArgument "--no-sandbox" ∈ tr ∧
      Event.addArgument "--disable-dev-shm-usage" ∈ tr ∧
      ∃ pre, tr = pre ++ cs.map Event.addCookie ∧
        Event.navigate "https://leetcode.com/" ∈ pre ∧
        ∀ c : Cookie, Event.addCookie c ∉ pre := by
  refine ⟨[Event.addArgument "--headless=new", Event.addArgument "--no-sandbox",
      Event.addArgument "--disable-dev-shm-usage", Event.launchChrome,
      Event.navigate "https://leetcode.com/"]
      ++ (COOKIE_KEYS.filterMap (cookieOfKey env)).map Event.addCookie,
    COOKIE_KEYS.filterMap (cookieOfKey env), ?_, get_cookies_eq env, ?_, ?_, ?_,
    [Event.addArgument "--headless=new", Event.addArgument "--no-sandbox",
      Event.addArgument "--disable-dev-shm-usage", Event.launchChrome,
      Event.navigate "https://leetcode.com/"], rfl, ?_, ?_⟩
  · simp [setup_driver, get_cookies_eq env]
  · simp
  · simp
  · simp
  · simp
  · intro c
    simp

/-- Witness for C6 at the concrete two-variable environment. -/
theorem c6_navigate_before_cookies_witness :
    ∃ tr cs, setup_driver demoEnv = some tr ∧ get_cookies demoEnv = some cs ∧
      Event.addArgument "--headless=new" ∈ tr ∧
      Event.addArgument "--no-sandbox" ∈ tr ∧
      Event.addArgument "--disable-dev-shm-usage" ∈ tr ∧
      ∃ pre, tr = pre ++ cs.map Event.addCookie ∧
        Event.navigate "https://leetcode.com/" ∈ pre ∧
        ∀ c : Cookie, Event.addCookie c ∉ pre :=
  c6_navigate_before_cookies demoEnv

/-- Claim C7: get_cookies is deterministic in the environment snapshot:
it depends only on the values of the six recognized keys, so any two
environments agreeing there produce identical outputs; the embedding is
a pure function of the snapshot, so no process state is mutated. -/
theorem c7_pure_deterministic (env₁ env₂ : Env)
    (h : ∀ k ∈ COOKIE_KEYS, env₁ k = env₂ k) :
    get_cookies env₁ = get_cookies env₂ := by
  rw [get_cookies_eq, get_cookies_eq]
  exact congrArg some (filterMap_congr_env env₁ env₂ COOKIE_KEYS h)

/-- Witness for C7: an environment with an extra unrelated variable
gives the same output as the plain demo environment. -/
theorem c7_pure_deterministic_witness :
    get_cookies demoEnvExtra = get_cookies demoEnv :=
  c7_pure_deterministic demoEnvExtra demoEnv (by decide)

/-- Claim C8: when the variable is unset OUTPUT_DIR takes the default
value leetcode-capitalone, and neither the collector nor the driver
bootstrap depends on it: overriding OUTPUT_DIR leaves both outputs
unchanged. -/
theorem c8_output_dir_default_and_unused (env : Env)
    (h : env "OUTPUT_DIR" = none) :
    OUTPUT_DIR env = "leetcode-capitalone" ∧
      ∀ v : Option String,
        get_cookies (updateEnv env "OUTPUT_DIR" v) = get_cookies env ∧
        setup_driver (updateEnv env "OUTPUT_DIR" v) = setup_driver env := by
  constructor
  · simp [OUTPUT_DIR, h]
  · intro v
    have hg : get_cookies (updateEnv env "OUTPUT_DIR" v) = get_cookies env := by
      rw [get_cookies_eq, get_cookies_eq]
      refine congrArg some (filterMap_congr_env _ _ COOKIE_KEYS ?_)
      intro j hj
      have hjk : j ≠ "OUTPUT_DIR" := by
        intro e; subst e; exact absurd hj (by decide)
      simp [updateEnv, hjk]
    exact ⟨hg, by simp [setup_driver, hg]⟩

/-- Witness for C8 at the empty environment. -/
theorem c8_output_dir_default_and_unused_witness :
    OUTPUT_DIR emptyEnv = "leetcode-capitalone" ∧
      ∀ v : Option String,
        get_cookies (updateEnv emptyEnv "OUTPUT_DIR" v) = get_cookies emptyEnv ∧
        setup_driver (updateEnv emptyEnv "OUTPUT_DIR" v) = setup_driver emptyEnv :=
  c8_output_dir_default_and_unused emptyEnv rfl

/-- Claim C10: the output of get_cookies never holds more than six
records and the names of its records are pairwise distinct. -/
theorem c10_at_most_six_distinct_names (env : Env) (cs : List Cookie)
    (h : get_cookies env = some cs) :
    cs.length ≤ 6 ∧ (cs.map Cookie.name).Nodup := by
  have he := get_cookies_eq env
  rw [h] at he
  have hcs : cs = COOKIE_KEYS.filterMap (cookieOfKey env) := Option.some.inj he
  subst hcs
  constructor
  · exact le_trans (List.length_filterMap_le _ _) (by decide)
  · exact List.Nodup.sublist (filterMap_names_sublist env COOKIE_KEYS) (by decide)

/-- Witness for C10 at the concrete two-variable environment. -/
theorem c10_at_most_six_distinct_names_witness :
    ([Cookie.mk "csrf_token" "xyz" "leetcode.com",
      Cookie.mk "leetcode_session" "abc123" ".leetcode.com"] : List Cookie).length ≤ 6 ∧
      (([Cookie.mk "csrf_token" "xyz" "leetcode.com",
         Cookie.mk "leetcode_session" "abc123" ".leetcode.com"] : List Cookie).map
        Cookie.name).Nodup :=
  c10_at_most_six_distinct_names demoEnv _ rfl

end Lesca
